import Mathlib

/-!
# Psyndica-Labs-UTXO — verification of the off-chain SDK against its specification

Shallow embedding of the off-chain transaction builders, the retryable
submitter and the Erlang-style supervisor of the Psyndica EUTXO repository.
Machine integers of the source (JS `number`, `bigint`) are modelled as `Nat`
(all quantities involved — lovelace amounts, POSIX-millisecond timestamps,
basis points — are non-negative in the source).  Fallible builders return
`Except`.  External collaborators (the Mesh transaction assembler, chain
fetchers, wallets) are out of scope per the spec; where a builder's
validation passed and the source hands off to `meshTxBuilder.complete()`,
the embedding records the assembled transaction sketch as the success value.
-/

/-! ## SHA-256 (`createHash('sha256')` of `node:crypto`, hex digest)

The escrow and HTLC builders commit to secrets with SHA-256 over the UTF-8
bytes of the secret string and compare lowercase-hex digests
(`src/offchain/src/transactions/escrow.ts` `hashSecret`,
`src/offchain/src/htlc-builder.ts` `sha256`).  The algorithm is implemented
here over `Nat` bytes/words with explicit reduction mod 2^32. -/

/-- Truncate to a 32-bit word. -/
def mask32 (x : Nat) : Nat := x % 2 ^ 32

/-- Right-rotation of a 32-bit word. -/
def rotr32 (n x : Nat) : Nat := mask32 ((x >>> n) ||| (x <<< (32 - n)))

/-- SHA-256 Σ₀. -/
def sigmaBig0 (x : Nat) : Nat := (rotr32 2 x) ^^^ (rotr32 13 x) ^^^ (rotr32 22 x)

/-- SHA-256 Σ₁. -/
def sigmaBig1 (x : Nat) : Nat := (rotr32 6 x) ^^^ (rotr32 11 x) ^^^ (rotr32 25 x)

/-- SHA-256 σ₀. -/
def sigmaSml0 (x : Nat) : Nat := (rotr32 7 x) ^^^ (rotr32 18 x) ^^^ (x >>> 3)

/-- SHA-256 σ₁. -/
def sigmaSml1 (x : Nat) : Nat := (rotr32 17 x) ^^^ (rotr32 19 x) ^^^ (x >>> 10)

/-- SHA-256 round constants (FIPS 180-4, in decimal). -/
def shaK : Array Nat := #[
  1116352408, 1899447441, 3049323471, 3921009573, 961987163, 1508970993,
  2453635748, 2870763221, 3624381080, 310598401, 607225278, 1426881987,
  1925078388, 2162078206, 2614888103, 3248222580, 3835390401, 4022224774,
  264347078, 604807628, 770255983, 1249150122, 1555081692, 1996064986,
  2554220882, 2821834349, 2952996808, 3210313671, 3336571891, 3584528711,
  113926993, 338241895, 666307205, 773529912, 1294757372, 1396182291,
  1695183700, 1986661051, 2177026350, 2456956037, 2730485921, 2820302411,
  3259730800, 3345764771, 3516065817, 3600352804, 4094571909, 275423344,
  430227734, 506948616, 659060556, 883997877, 958139571, 1322822218,
  1537002063, 1747873779, 1955562222, 2024104815, 2227730452, 2361852424,
  2428436474, 2756734187, 3204031479, 3329325298]

/-- SHA-256 chaining state: eight 32-bit words. -/
structure Sha256State where
  a : Nat
  b : Nat
  c : Nat
  d : Nat
  e : Nat
  f : Nat
  g : Nat
  h : Nat
deriving Repr, DecidableEq

/-- SHA-256 initial hash value. -/
def shaInit : Sha256State :=
  ⟨1779033703, 3144134277, 1013904242, 2773480762,
   1359893119, 2600822924, 528734635, 1541459225⟩

/-- Big-endian 32-bit words from bytes (groups of four, remainder dropped —
the padded message length is a multiple of four). -/
def bytesToWords : List Nat → List Nat
  | b0 :: b1 :: b2 :: b3 :: rest =>
      (((b0 * 256 + b1) * 256 + b2) * 256 + b3) :: bytesToWords rest
  | _ => []

/-- Extend the 16 message words to the 64-entry schedule. -/
def shaSchedule (w16 : Array Nat) : Array Nat :=
  (List.range 48).foldl (fun w i =>
    let s0 := sigmaSml0 (w.getD (i + 1) 0)
    let s1 := sigmaSml1 (w.getD (i + 14) 0)
    w.push (mask32 (w.getD i 0 + s0 + w.getD (i + 9) 0 + s1))) w16

/-- One SHA-256 compression round. -/
def shaRound (w : Array Nat) (st : Sha256State) (i : Nat) : Sha256State :=
  let t1 := mask32 (st.h + sigmaBig1 st.e + ((st.e &&& st.f) ^^^ ((2 ^ 32 - 1 - st.e) &&& st.g))
              + shaK.getD i 0 + w.getD i 0)
  let t2 := mask32 (sigmaBig0 st.a + ((st.a &&& st.b) ^^^ (st.a &&& st.c) ^^^ (st.b &&& st.c)))
  ⟨mask32 (t1 + t2), st.a, st.b, st.c, mask32 (st.d + t1), st.e, st.f, st.g⟩

/-- Compress one 64-byte block into the chaining state. -/
def shaCompress (st : Sha256State) (block : List Nat) : Sha256State :=
  let w := shaSchedule (Array.mk (bytesToWords block))
  let r := (List.range 64).foldl (shaRound w) st
  ⟨mask32 (st.a + r.a), mask32 (st.b + r.b), mask32 (st.c + r.c), mask32 (st.d + r.d),
   mask32 (st.e + r.e), mask32 (st.f + r.f), mask32 (st.g + r.g), mask32 (st.h + r.h)⟩

/-- Split a byte list into 64-byte chunks (fuel-driven so the kernel can
evaluate it; `fuel = l.length` always suffices). -/
def chunks64Go : Nat → List Nat → List (List Nat)
  | _, [] => []
  | 0, _ => []
  | fuel + 1, l => l.take 64 :: chunks64Go fuel (l.drop 64)

/-- Split a byte list into 64-byte chunks. -/
def chunks64 (l : List Nat) : List (List Nat) := chunks64Go l.length l

/-- SHA-256 padding: 0x80, zeros to 56 mod 64, then the 64-bit big-endian bit length. -/
def shaPad (msg : List Nat) : List Nat :=
  let len := msg.length
  let zeros := (120 - (len + 1) % 64) % 64
  let bitLen := 8 * len
  msg ++ [0x80] ++ List.replicate zeros 0 ++
    [bitLen >>> 56 % 256, bitLen >>> 48 % 256, bitLen >>> 40 % 256, bitLen >>> 32 % 256,
     bitLen >>> 24 % 256, bitLen >>> 16 % 256, bitLen >>> 8 % 256, bitLen % 256]

/-- Big-endian bytes of one 32-bit word. -/
def wordBytes (w : Nat) : List Nat :=
  [w >>> 24 % 256, w >>> 16 % 256, w >>> 8 % 256, w % 256]

/-- SHA-256 digest (32 bytes) of a byte list. -/
def sha256Bytes (msg : List Nat) : List Nat :=
  let fin := (chunks64 (shaPad msg)).foldl shaCompress shaInit
  wordBytes fin.a ++ wordBytes fin.b ++ wordBytes fin.c ++ wordBytes fin.d ++
  wordBytes fin.e ++ wordBytes fin.f ++ wordBytes fin.g ++ wordBytes fin.h

/-- Lowercase hex digit. -/
def hexDigit (n : Nat) : Char :=
  if n < 10 then Char.ofNat (48 + n) else Char.ofNat (87 + n)

/-- Lowercase hex string of a byte list. -/
def hexOfBytes (bs : List Nat) : String :=
  String.mk (bs.flatMap (fun b => [hexDigit (b / 16), hexDigit (b % 16)]))

/-- UTF-8 bytes of one character (Node's `hash.update(string)` default encoding). -/
def utf8BytesOfChar (c : Char) : List Nat :=
  let n := c.toNat
  if n < 0x80 then [n]
  else if n < 0x800 then [0xC0 ||| (n >>> 6), 0x80 ||| (n &&& 0x3F)]
  else if n < 0x10000 then
    [0xE0 ||| (n >>> 12), 0x80 ||| ((n >>> 6) &&& 0x3F), 0x80 ||| (n &&& 0x3F)]
  else
    [0xF0 ||| (n >>> 18), 0x80 ||| ((n >>> 12) &&& 0x3F),
     0x80 ||| ((n >>> 6) &&& 0x3F), 0x80 ||| (n &&& 0x3F)]

/-- UTF-8 bytes of a string. -/
def strBytes (s : String) : List Nat := (s.data.map utf8BytesOfChar).flatten

/-- `sha256` of `src/offchain/src/htlc-builder.ts`: lowercase-hex SHA-256 digest
of a string (`createHash('sha256').update(data).digest('hex')`). -/
def sha256 (data : String) : String := hexOfBytes (sha256Bytes (strBytes data))

/-- `hashSecret` of `src/offchain/src/transactions/escrow.ts`: the same digest
(`createHash('sha256').update(secret).digest('hex')`). -/
def hashSecret (secret : String) : String := sha256 secret

/-! ## Escrow data model (`src/offchain/src/types.ts`)

`Lovelace` (`bigint`) and `POSIXTime` (`number`, milliseconds) are `Nat`.
The ambient clock `Date.now()` is passed explicitly as a `now` argument to
every builder that reads it. -/

/-- `EscrowState` of `types.ts`. -/
inductive EscrowState where
  | Locked
  | Claiming
  | Completed
  | Refunded
deriving Repr, DecidableEq

/-- `EscrowDatum` of `types.ts`. -/
structure EscrowDatum where
  depositor : String
  beneficiary : String
  secretHash : String
  deadline : Nat
  amount : Nat
  state : EscrowState
  btcTxRef : Option String
deriving Repr, DecidableEq

/-- `TransactionResult` of `types.ts`. -/
structure TransactionResult where
  unsignedTx : String
  fee : Nat
  inputs : List String
  outputs : List String
deriving Repr, DecidableEq

/-- The escrow UTXO argument `{ txHash; outputIndex; value }` of the spend builders. -/
structure EscrowUtxo where
  txHash : String
  outputIndex : Nat
  value : Nat
deriving Repr, DecidableEq

/-! ## Escrow transaction builders (`src/offchain/src/transactions/escrow.ts`)

`Result<T>` of the source (`{success: true, value} | {success: false, error}`)
is `Except String T`, carrying the `Error` message. -/

/-- `MIN_ESCROW_AMOUNT` (escrow.ts line 25). -/
def MIN_ESCROW_AMOUNT : Nat := 5000000

/-- `GRACE_PERIOD_MS` (escrow.ts line 28). -/
def GRACE_PERIOD_MS : Nat := 300000

/-- `buildCreateEscrowTransaction` (escrow.ts lines 104–158): validates the
amount and deadline, hashes the secret, constructs the `Locked` datum and the
transaction stub.  The source returns only the `TransactionResult` and embeds
the datum in the (out-of-scope) CBOR output; the embedding returns the datum
it constructed alongside, so its fields can be inspected. -/
def buildCreateEscrowTransaction (depositor beneficiary : String) (secret : String)
    (amount : Nat) (deadline : Nat) (btcTxRef : Option String)
    (_scriptAddress _depositorAddress : String) (now : Nat) :
    Except String (EscrowDatum × TransactionResult) :=
  if amount < MIN_ESCROW_AMOUNT then
    .error ("Amount " ++ toString amount ++ " below minimum " ++ toString MIN_ESCROW_AMOUNT)
  else if deadline ≤ now then
    .error "Deadline must be in the future"
  else
    let secretHash := hashSecret secret
    let datum : EscrowDatum :=
      { depositor := depositor, beneficiary := beneficiary, secretHash := secretHash,
        deadline := deadline, amount := amount, state := .Locked, btcTxRef := btcTxRef }
    .ok (datum,
      { unsignedTx := "", fee := 250000,
        inputs := ["depositorUtxo#0"], outputs := ["escrowOutput#0"] })

/-- `buildClaimEscrowTransaction` (escrow.ts lines 168–212): state must be
`Locked`, the hashed secret must match, and the deadline check rejects only
when `now > datum.deadline`. -/
def buildClaimEscrowTransaction (escrowUtxo : EscrowUtxo) (datum : EscrowDatum)
    (secret : String) (_beneficiaryAddress : String) (now : Nat) :
    Except String TransactionResult :=
  if datum.state ≠ .Locked then
    .error "Cannot claim escrow in state: not Locked"
  else if hashSecret secret ≠ datum.secretHash then
    .error "Invalid secret: hash does not match"
  else if now > datum.deadline then
    .error "Claim deadline has passed"
  else
    .ok { unsignedTx := "", fee := 300000,
          inputs := [escrowUtxo.txHash ++ "#" ++ toString escrowUtxo.outputIndex],
          outputs := ["beneficiaryOutput#0"] }

/-- `buildRefundEscrowTransaction` (escrow.ts lines 221–260): state must be
`Locked` and `now` must reach `deadline + GRACE_PERIOD_MS`. -/
def buildRefundEscrowTransaction (escrowUtxo : EscrowUtxo) (datum : EscrowDatum)
    (_depositorAddress : String) (now : Nat) : Except String TransactionResult :=
  if datum.state ≠ .Locked then
    .error "Cannot refund escrow in state: not Locked"
  else
    let refundableTime := datum.deadline + GRACE_PERIOD_MS
    if now < refundableTime then
      .error ("Must wait " ++ toString ((refundableTime - now + 999) / 1000) ++
        " more seconds for refund")
    else
      .ok { unsignedTx := "", fee := 250000,
            inputs := [escrowUtxo.txHash ++ "#" ++ toString escrowUtxo.outputIndex],
            outputs := ["depositorOutput#0"] }

/-- `buildCancelEscrowTransaction` (escrow.ts lines 269–303): state must be
`Locked` and `now < deadline`.  The `depositorAddress` argument is received
but never validated against `datum.depositor` — the source performs no caller
authorization check. -/
def buildCancelEscrowTransaction (escrowUtxo : EscrowUtxo) (datum : EscrowDatum)
    (_depositorAddress : String) (now : Nat) : Except String TransactionResult :=
  if datum.state ≠ .Locked then
    .error "Cannot cancel escrow in state: not Locked"
  else if now ≥ datum.deadline then
    .error "Cannot cancel after deadline - use refund instead"
  else
    .ok { unsignedTx := "", fee := 250000,
          inputs := [escrowUtxo.txHash ++ "#" ++ toString escrowUtxo.outputIndex],
          outputs := ["depositorOutput#0"] }

/-- `validateEscrowDatum` (escrow.ts lines 337–378): amount, deadline,
64-hex-char secret hash, and 56-char depositor/beneficiary key hashes. -/
def validateEscrowDatum (datum : EscrowDatum) (now : Nat) : Except String Unit :=
  if datum.amount < MIN_ESCROW_AMOUNT then
    .error ("Amount below minimum: " ++ toString datum.amount)
  else if datum.deadline ≤ now then
    .error "Deadline must be in the future"
  else if datum.secretHash.length ≠ 64 then
    .error "Invalid secret hash length"
  else if datum.depositor.length ≠ 56 then
    .error "Invalid depositor address length"
  else if datum.beneficiary.length ≠ 56 then
    .error "Invalid beneficiary address length"
  else
    .ok ()

/-- `calculateDeadline` (escrow.ts lines 330–332). -/
def calculateDeadline (durationMs : Nat) (now : Nat) : Nat := now + durationMs

/-! ## HTLC builder (`src/offchain/src/htlc-builder.ts`)

The local `HTLCDatum` type (`src/unnamed/part_004`) used by
`HTLCTransactionBuilder`: `{recipient, refundAddress, secretHash, timeout,
tokenPolicy, tokenName, tokenAmount}`.  `Result<T,E>`
(`{ok: true, value} | {ok: false, error}`) is `Except TransactionBuildError T`.
The Mesh builder calls are recorded in a `MeshTx` sketch; `complete()` is an
external collaborator and is modelled as succeeding once the builder's own
validation passed (its failure would be caught and rewrapped as
`SCRIPT_ERROR`, which no claim exercises). -/

/-- `TransactionErrorCode` of `src/unnamed/part_004`. -/
inductive TransactionErrorCode where
  | INSUFFICIENT_FUNDS
  | INVALID_DATUM
  | INVALID_REDEEMER
  | UTXO_NOT_FOUND
  | SCRIPT_ERROR
  | NETWORK_ERROR
  | TIMEOUT
  | INVALID_SHARES
deriving Repr, DecidableEq

/-- `TransactionBuildError` of `src/unnamed/part_004` (the `cause` chain is
kept as an optional message). -/
structure TransactionBuildError where
  message : String
  code : TransactionErrorCode
  cause : Option String := none
deriving Repr, DecidableEq

/-- `HTLCDatum` of `src/unnamed/part_004` (the type `htlc-builder.ts` imports). -/
structure HTLCDatum where
  recipient : String
  refundAddress : String
  secretHash : String
  timeout : Nat
  tokenPolicy : String
  tokenName : String
  tokenAmount : Nat
deriving Repr, DecidableEq

/-- A UTXO input reference (`utxo.input.txHash`, `utxo.input.outputIndex`). -/
structure UtxoInput where
  txHash : String
  outputIndex : Nat
deriving Repr, DecidableEq

/-- Sketch of the transaction the Mesh builder assembles: inputs, asset
outputs `(address, unit, quantity)`, validity interval, change address. -/
structure MeshTx where
  inputs : List UtxoInput
  outputs : List (String × String × Nat)
  invalidBefore : Option Nat := none
  invalidHereafter : Option Nat := none
  changeAddress : String
deriving Repr, DecidableEq

namespace HTLCTransactionBuilder

/-- `HTLCTransactionBuilder.buildCreate` (htlc-builder.ts lines 67–134):
rejects a timeout not in the future and a secret hash that is not 64 hex
characters, then assembles the funding transaction.  It performs no
minimum-amount check. -/
def buildCreate (datum : HTLCDatum) (fundingUtxos : List UtxoInput)
    (changeAddress : String) (scriptAddress : String) (now : Nat) :
    Except TransactionBuildError MeshTx :=
  if datum.timeout ≤ now then
    .error { message := "HTLC timeout must be in the future",
             code := .INVALID_DATUM }
  else if datum.secretHash.length ≠ 64 then
    .error { message := "Secret hash must be 32 bytes (64 hex characters)",
             code := .INVALID_DATUM }
  else
    .ok { inputs := fundingUtxos,
          outputs := [(scriptAddress, datum.tokenPolicy ++ datum.tokenName, datum.tokenAmount)],
          changeAddress := changeAddress }

/-- `HTLCTransactionBuilder.buildClaim` (htlc-builder.ts lines 142–212):
the secret must hash to the committed value and the claim must be strictly
before the timeout; the validity interval ends at `timeout - 1`. -/
def buildClaim (htlcUtxo : UtxoInput) (datum : HTLCDatum) (secret : String)
    (recipientAddress changeAddress : String) (now : Nat) :
    Except TransactionBuildError MeshTx :=
  if sha256 secret ≠ datum.secretHash then
    .error { message := "Secret does not match expected hash",
             code := .INVALID_REDEEMER }
  else if now ≥ datum.timeout then
    .error { message := "HTLC has expired, use refund instead",
             code := .TIMEOUT }
  else
    .ok { inputs := [htlcUtxo],
          outputs := [(recipientAddress, datum.tokenPolicy ++ datum.tokenName, datum.tokenAmount)],
          invalidHereafter := some (datum.timeout - 1),
          changeAddress := changeAddress }

/-- `HTLCTransactionBuilder.buildRefund` (htlc-builder.ts lines 219–276):
rejects only while `now < timeout` — it applies no grace period; the
validity interval starts at `timeout`. -/
def buildRefund (htlcUtxo : UtxoInput) (datum : HTLCDatum)
    (refundAddress changeAddress : String) (now : Nat) :
    Except TransactionBuildError MeshTx :=
  if now < datum.timeout then
    .error { message := "HTLC has not expired yet",
             code := .TIMEOUT }
  else
    .ok { inputs := [htlcUtxo],
          outputs := [(refundAddress, datum.tokenPolicy ++ datum.tokenName, datum.tokenAmount)],
          invalidBefore := some datum.timeout,
          changeAddress := changeAddress }

end HTLCTransactionBuilder

/-- `calculateTimeout` (htlc-builder.ts lines 327–329): `Date.now() + durationMs`. -/
def calculateTimeout (durationMs : Nat) (now : Nat) : Nat := now + durationMs

/-- `AtomicSwapParams` of htlc-builder.ts (participants and offers are kept;
the clock and the generated random secret become explicit inputs of
`generateAtomicSwapParams`). -/
structure AtomicSwapParams where
  cardanoOfferTokenPolicy : String
  cardanoOfferTokenName : String
  cardanoOfferAmount : Nat
  initiator : String
  counterparty : String
  cardanoTimeoutMs : Nat
  bitcoinTimeoutMs : Nat
deriving Repr, DecidableEq

/-- The record `generateAtomicSwapParams` returns. -/
structure AtomicSwapResult where
  secret : String
  secretHash : String
  cardanoHTLC : HTLCDatum
  bitcoinTimeout : Nat
deriving Repr, DecidableEq

/-- `generateAtomicSwapParams` (htlc-builder.ts lines 364–395).  The source
draws `secret` from `generateSecret(32)` (a PRNG) and reads `Date.now()`
inside `calculateTimeout`; both are inputs here (the unit tests fix the clock
with fake timers, so both `calculateTimeout` calls see the same `now`). -/
def generateAtomicSwapParams (params : AtomicSwapParams) (secret : String) (now : Nat) :
    AtomicSwapResult :=
  let secretHash := sha256 secret
  { secret := secret
    secretHash := secretHash
    cardanoHTLC :=
      { recipient := params.counterparty
        refundAddress := params.initiator
        secretHash := secretHash
        timeout := calculateTimeout params.cardanoTimeoutMs now
        tokenPolicy := params.cardanoOfferTokenPolicy
        tokenName := params.cardanoOfferTokenName
        tokenAmount := params.cardanoOfferAmount }
    bitcoinTimeout := calculateTimeout params.bitcoinTimeoutMs now }

/-! ## Retryable submitter (`submitWithRetry` of the royalty-builder module)

The chain submitter (`submitter.submitTx`) is an external collaborator: it is
modelled as a function from the attempt number (1-based) to an outcome.  The
`sleep` calls are recorded in a delay trace instead of elapsing. -/

/-- `RetryConfig`. -/
structure RetryConfig where
  maxAttempts : Nat
  baseDelayMs : Nat
  maxDelayMs : Nat
deriving Repr, DecidableEq

/-- `DEFAULT_RETRY_CONFIG`. -/
def DEFAULT_RETRY_CONFIG : RetryConfig :=
  { maxAttempts := 3, baseDelayMs := 1000, maxDelayMs := 30000 }

/-- Outcome of one `submitter.submitTx` call: a tx hash, or a thrown `Error`
carried by its message. -/
inductive SubmitOutcome where
  | ok (txHash : String)
  | err (message : String)
deriving Repr, DecidableEq

/-- ASCII lowercase of a string (`String.prototype.toLowerCase` on the
ASCII error messages and patterns involved). -/
def toLowerStr (s : String) : String := String.mk (s.data.map Char.toLower)

/-- `message.includes(pattern)`: some suffix of the haystack starts with the
pattern. -/
def strIncludes (hay pat : String) : Bool :=
  hay.data.tails.any (fun t => pat.data.isPrefixOf t)

/-- `isRetryableError`: the lowercased message contains one of the fixed
network/timeout/connection patterns (each also lowercased). -/
def isRetryableError (message : String) : Bool :=
  let retryablePatterns := ["network", "timeout", "connection", "ECONNREFUSED",
    "ETIMEDOUT", "temporarily unavailable"]
  retryablePatterns.any (fun pat => strIncludes (toLowerStr message) (toLowerStr pat))

deriving instance DecidableEq for Except

/-- Result of a retry run: the final outcome (`Except` with the wrapped
error), the number of `submitTx` attempts made, and the backoff delays slept
(in order). -/
structure RetryRun where
  result : Except TransactionBuildError String
  attempts : Nat
  delays : List Nat
deriving Repr, DecidableEq

/-- The wrapped failure `submitWithRetry` returns when the loop ends without
success: message counts `config.maxAttempts`, code `NETWORK_ERROR`, the last
error as cause. -/
def retryFailure (config : RetryConfig) (lastError : Option String) : TransactionBuildError :=
  { message := "Transaction submission failed after " ++ toString config.maxAttempts ++ " attempts",
    code := .NETWORK_ERROR,
    cause := lastError }

/-- The `for` loop of `submitWithRetry`, from `attempt` up to
`config.maxAttempts` (structural recursion on the remaining attempts). -/
def submitWithRetryGo (submitTx : Nat → SubmitOutcome) (config : RetryConfig)
    (lastError : Option String) (delays : List Nat) (attempts : Nat) :
    Nat → Nat → RetryRun
  | _attempt, 0 => { result := .error (retryFailure config lastError),
                     attempts := attempts, delays := delays }
  | attempt, remaining + 1 =>
    match submitTx attempt with
    | .ok txHash => { result := .ok txHash, attempts := attempts + 1, delays := delays }
    | .err msg =>
      if ¬ isRetryableError msg then
        { result := .error (retryFailure config (some msg)),
          attempts := attempts + 1, delays := delays }
      else
        let delay := min (config.baseDelayMs * 2 ^ (attempt - 1)) config.maxDelayMs
        submitWithRetryGo submitTx config (some msg) (delays ++ [delay]) (attempts + 1)
          (attempt + 1) remaining

/-- `submitWithRetry` (royalty-builder module, lines 541–578): up to
`maxAttempts` submissions with backoff `min(base * 2^(attempt-1), maxDelayMs)`
after each retryable failure (including, as in the source, after the final
attempt); a non-retryable error breaks out of the loop at once; the wrapped
failure is returned whenever the loop ends without a successful submission. -/
def submitWithRetry (submitTx : Nat → SubmitOutcome) (config : RetryConfig) : RetryRun :=
  submitWithRetryGo submitTx config none [] 0 1 config.maxAttempts

/-! ## Royalty shares (`src/offchain/src/types/index.ts`) and the
`RoyaltyBuilder` (`src/offchain/src/builders/royalty.ts`) -/

/-- `RoyaltyRecipient` of `types/index.ts`: share in basis points and an
optional minimum-payout threshold (`minThreshold?: bigint`). -/
structure RoyaltyRecipient where
  address : String
  shareBps : Nat
  minThreshold : Option Nat := none
deriving Repr, DecidableEq

/-- `validateShares` (types/index.ts lines 152–155): the shares sum to
exactly 10000 basis points. -/
def validateShares (recipients : List RoyaltyRecipient) : Bool :=
  (recipients.foldl (fun acc r => acc + r.shareBps) 0) = 10000

/-- `calculatePayout` (types/index.ts lines 160–162): `(totalAmount *
shareBps) / 10000` with `bigint` (truncating) division. -/
def calculatePayout (totalAmount : Nat) (shareBps : Nat) : Nat :=
  totalAmount * shareBps / 10000

/-- `RoyaltyDatum` of `types/index.ts` (`RoyaltyDatumV1`). -/
structure RoyaltyDatum where
  version : Nat
  nftPolicyId : String
  recipients : List RoyaltyRecipient
  admin : String
  isLocked : Bool
deriving Repr, DecidableEq

/-- `CreateRoyaltyParams` of `builders/royalty.ts`. -/
structure CreateRoyaltyParams where
  nftPolicyId : String
  recipients : List RoyaltyRecipient
  admin : String
  initialFunding : Nat
deriving Repr, DecidableEq

/-- Sketch of the transaction `RoyaltyBuilder` assembles: lovelace outputs
`(address, quantity)` plus the datum placed at the validator output. -/
structure RoyaltyTx where
  outputs : List (String × Nat)
  datum : Option RoyaltyDatum := none
  changeAddress : String
deriving Repr, DecidableEq

/-- `RoyaltyBuilder.buildCreateRoyalty` (builders/royalty.ts lines 94–127):
throws before touching wallet or transaction builder when the shares do not
sum to 10000; otherwise builds the initial-funding output carrying the
version-1 unlocked datum.  The wallet and Mesh assembler are external; the
throw is `Except.error`. -/
def buildCreateRoyalty (params : CreateRoyaltyParams)
    (validatorAddress changeAddress : String) : Except String RoyaltyTx :=
  if ¬ validateShares params.recipients then
    .error "Royalty shares must sum to exactly 10000 basis points (100%)"
  else
    let datum : RoyaltyDatum :=
      { version := 1, nftPolicyId := params.nftPolicyId,
        recipients := params.recipients, admin := params.admin, isLocked := false }
    .ok { outputs := [(validatorAddress, params.initialFunding)],
          datum := some datum, changeAddress := changeAddress }

/-- The recipient-output loop of `RoyaltyBuilder.buildDistribute`
(builders/royalty.ts lines 176–189): each recipient is paid
`calculatePayout(totalLovelace, shareBps)`, skipped when a minimum threshold
is configured (and truthy, i.e. non-zero) and the payout falls below it. -/
def distributeOutputs (totalLovelace : Nat) (recipients : List RoyaltyRecipient) :
    List (String × Nat) :=
  recipients.filterMap (fun r =>
    let payoutAmount := calculatePayout totalLovelace r.shareBps
    if r.minThreshold.getD 0 ≠ 0 ∧ payoutAmount < r.minThreshold.getD 0 then none
    else some (r.address, payoutAmount))

/-- `RoyaltyBuilder.buildDistribute` (builders/royalty.ts lines 135–197):
spends the royalty UTXO (fetched externally; its lovelace is the input here)
and pays every above-threshold recipient its payout.  No share validation is
performed here. -/
def buildDistribute (currentDatum : RoyaltyDatum) (totalLovelace : Nat)
    (changeAddress : String) : Except String RoyaltyTx :=
  .ok { outputs := distributeOutputs totalLovelace currentDatum.recipients,
        changeAddress := changeAddress }

/-! ## Supervisor (`src/unnamed/part_003`)

The supervisor's interactions with its child processes (`process.start()`,
`process.stop()`, the backoff `delay`, the emitted events) are recorded in an
action trace; the children's `start`/`stop` calls themselves are external and
modelled as succeeding (the crashes the claims exercise are delivered
externally through `handleCrash`).  `Date.now()` is an explicit `now`
argument.  The thrown re-raise after `supervisorCrashed` is recorded as the
`supCrashed` trace action. -/

/-- `SupervisionStrategy` of `types.ts`. -/
inductive SupervisionStrategy where
  | OneForOne
  | OneForAll
  | RestForOne
deriving Repr, DecidableEq

/-- `SupervisedProcessConfig` of `types.ts`. -/
structure SupervisedProcessConfig where
  id : String
  maxRestarts : Nat
  restartWindow : Nat
  backoffMs : Nat
deriving Repr, DecidableEq

/-- `SupervisorConfig` of `types.ts`. -/
structure SupervisorConfig where
  strategy : SupervisionStrategy
  children : List SupervisedProcessConfig
  maxRestarts : Nat
  restartWindow : Nat
deriving Repr, DecidableEq

/-- One entry of the `restartCounts` map: `{count, windowStart}`. -/
structure RestartInfo where
  count : Nat
  windowStart : Nat
deriving Repr, DecidableEq

/-- Observable actions of one `handleCrash` run, in order. -/
inductive SupAction where
  | crashed (id : String)
  | restarting (id : String) (attempt : Nat)
  | delay (ms : Nat)
  | stop (id : String)
  | start (id : String)
  | restarted (id : String) (attempt : Nat)
  | escalated
  | supCrashed
deriving Repr, DecidableEq

/-- Supervisor state: process ids in registration order (the insertion order
of the `processes` map), the `restartCounts` association, the supervisor's
own restart bookkeeping, and the running flag. -/
structure SupervisorState where
  procIds : List String
  restartCounts : List (String × RestartInfo)
  supervisorRestarts : RestartInfo
  isRunning : Bool
deriving Repr, DecidableEq

namespace Supervisor

/-- Look up a `restartCounts` entry (the source indexes with `.get(id)!`;
every crash the claims deliver is for a registered id). -/
def lookupInfo (m : List (String × RestartInfo)) (id : String) : RestartInfo :=
  match m.find? (fun p => p.1 == id) with
  | some p => p.2
  | none => { count := 0, windowStart := 0 }

/-- Write back a `restartCounts` entry (the source mutates the stored record). -/
def setInfo (m : List (String × RestartInfo)) (id : String) (ri : RestartInfo) :
    List (String × RestartInfo) :=
  m.map (fun p => if p.1 == id then (p.1, ri) else p)

/-- `this.config.children.find(c => c.id === id)`. -/
def findChild (cfg : SupervisorConfig) (id : String) : Option SupervisedProcessConfig :=
  cfg.children.find? (fun c => c.id == id)

/-- The state after `registerProcess` of each id at time `t0` (fresh counts,
window start at registration) followed by `startAll`. -/
def initialState (ids : List String) (t0 : Nat) : SupervisorState :=
  { procIds := ids
    restartCounts := ids.map (fun id => (id, { count := 0, windowStart := t0 }))
    supervisorRestarts := { count := 0, windowStart := t0 }
    isRunning := true }

/-- `stopProcess` (part_003 lines 165–176): a `stop()` call when the id is
registered; stop failures are swallowed. -/
def stopTrace (st : SupervisorState) (id : String) : List SupAction :=
  if st.procIds.contains id then [.stop id] else []

/-- `startProcess` (part_003 lines 152–163): a `start()` call when the id is
registered (start success assumed; a start failure re-enters `handleCrash`). -/
def startTrace (st : SupervisorState) (id : String) : List SupAction :=
  if st.procIds.contains id then [.start id] else []

/-- `restartProcess` (part_003 lines 178–198): bump the restart count, back
off `config.backoffMs * count`, stop then start the one process. -/
def restartProc (cfg : SupervisorConfig) (st : SupervisorState) (id : String) :
    SupervisorState × List SupAction :=
  if ¬ st.procIds.contains id then (st, [])
  else
    let ri := lookupInfo st.restartCounts id
    let count := ri.count + 1
    let st := { st with restartCounts := setInfo st.restartCounts id { ri with count := count } }
    let delayTr := match findChild cfg id with
      | some c => [SupAction.delay (c.backoffMs * count)]
      | none => []
    (st, [.restarting id count] ++ delayTr ++ stopTrace st id ++ startTrace st id
      ++ [.restarted id count])

/-- `restartAll` (part_003 lines 200–211): stop every process in reverse
registration order, then start every process in registration order. -/
def restartAllTrace (st : SupervisorState) : List SupAction :=
  (st.procIds.reverse.map SupAction.stop) ++ (st.procIds.map SupAction.start)

/-- `restartFromProcess` (part_003 lines 213–227): stop the crashed process
and all registered after it in reverse order, then start that same slice in
registration order.  (`indexOf` of an unregistered id is `-1`, and
`slice(-1)` is the last singleton — mirrored here.) -/
def restForOneTrace (st : SupervisorState) (crashedId : String) : List SupAction :=
  let toRestart := match st.procIds.findIdx? (fun x => x == crashedId) with
    | some i => st.procIds.drop i
    | none => st.procIds.drop (st.procIds.length - 1)
  (toRestart.reverse.map SupAction.stop) ++ (toRestart.map SupAction.start)

/-- `shouldEscalate` (part_003 lines 229–244): reset the sliding window when
elapsed, then compare the restart count with the child's budget.  Returns
the decision together with the (possibly window-reset) state. -/
def shouldEscalate (cfg : SupervisorConfig) (st : SupervisorState) (id : String)
    (now : Nat) : Bool × SupervisorState :=
  let ri := lookupInfo st.restartCounts id
  match findChild cfg id with
  | none => (false, st)
  | some config =>
    let ri := if now - ri.windowStart > config.restartWindow
      then { count := 0, windowStart := now } else ri
    let st := { st with restartCounts := setInfo st.restartCounts id ri }
    (ri.count ≥ config.maxRestarts, st)

/-- `stopAll` (part_003 lines 105–116): clear the running flag and stop all
in reverse order. -/
def stopAllRun (st : SupervisorState) : SupervisorState × List SupAction :=
  ({ st with isRunning := false }, st.procIds.reverse.map SupAction.stop)

/-- `escalate` (part_003 lines 246–267): slide the supervisor's own window,
bump its count; past the supervisor budget emit `supervisorCrashed`, stop
everything and re-raise; within budget emit `escalated` and restart the
whole tree. -/
def escalate (cfg : SupervisorConfig) (st : SupervisorState) (now : Nat) :
    SupervisorState × List SupAction :=
  let sup := st.supervisorRestarts
  let sup := if now - sup.windowStart > cfg.restartWindow
    then { count := 0, windowStart := now } else sup
  let sup := { sup with count := sup.count + 1 }
  let st := { st with supervisorRestarts := sup }
  if sup.count ≥ cfg.maxRestarts then
    let (st, tr) := stopAllRun st
    (st, [.supCrashed] ++ tr)
  else
    (st, [.escalated] ++ restartAllTrace st)

/-- `handleCrash` (part_003 lines 121–146): ignore crashes while stopped,
escalate past the child's budget, otherwise dispatch on the strategy. -/
def handleCrash (cfg : SupervisorConfig) (st : SupervisorState) (processId : String)
    (now : Nat) : SupervisorState × List SupAction :=
  if ¬ st.isRunning then (st, [])
  else
    let ev := [SupAction.crashed processId]
    let (esc, st) := shouldEscalate cfg st processId now
    if esc then
      let (st, tr) := escalate cfg st now
      (st, ev ++ tr)
    else
      match cfg.strategy with
      | .OneForOne =>
        let (st, tr) := restartProc cfg st processId
        (st, ev ++ tr)
      | .OneForAll => (st, ev ++ restartAllTrace st)
      | .RestForOne => (st, ev ++ restForOneTrace st processId)

end Supervisor

/-! ## Helper lemmas -/

/-- Hex expansion doubles the byte count. -/
theorem hexOfBytes_data_length (bs : List Nat) :
    (bs.flatMap (fun b => [hexDigit (b / 16), hexDigit (b % 16)])).length = 2 * bs.length := by
  induction bs with
  | nil => rfl
  | cons b t ih => simp [List.flatMap_cons, ih]; omega

/-- A SHA-256 hex digest has 64 characters for every input. -/
theorem sha256_length (s : String) : (sha256 s).length = 64 := by
  have h32 : (sha256Bytes (strBytes s)).length = 32 := by
    simp [sha256Bytes, wordBytes]
  have : (sha256 s).length =
      ((sha256Bytes (strBytes s)).flatMap
        (fun b => [hexDigit (b / 16), hexDigit (b % 16)])).length := rfl
  rw [this, hexOfBytes_data_length, h32]

/-- `hashSecret` digests are 64 characters. -/
theorem hashSecret_length (s : String) : (hashSecret s).length = 64 := sha256_length s

/-! ## C1 — Claim transaction builders -/

set_option maxRecDepth 10000 in
/-- C1 counterexample.  The claim states that building a Claim succeeds only
when `now` is *strictly* before the deadline.  `buildClaimEscrowTransaction`
(escrow.ts line 194 rejects only `now > deadline`) succeeds at
`now = deadline` exactly, with a matching secret and a `Locked` datum. -/
theorem claim_C1_counterexample :
    (buildClaimEscrowTransaction
      { txHash := "tx0", outputIndex := 0, value := 6000000 }
      { depositor := "dep", beneficiary := "ben", secretHash := hashSecret "s",
        deadline := 100, amount := 6000000, state := .Locked, btcTxRef := none }
      "s" "benAddr" 100).isOk = true ∧ ¬ (100 < 100) := by
  constructor
  · decide
  · decide

/-- C1 (amended): for `HTLCTransactionBuilder.buildClaim` the claim holds as
stated (success iff the secret hashes to the commitment and `now` is strictly
before the timeout, invalid-secret reported before expiry); for
`buildClaimEscrowTransaction` the deadline condition is non-strict — success
iff the state is `Locked`, the secret hashes to the commitment and
`now ≤ deadline`; a hash mismatch yields the invalid-secret error and
`now > deadline` the expired error, with no transaction produced. -/
theorem claim_C1_amended (escrowUtxo : EscrowUtxo) (datum : EscrowDatum)
    (htlcUtxo : UtxoInput) (hdatum : HTLCDatum)
    (secret ba ra ca : String) (now : Nat) :
    ((buildClaimEscrowTransaction escrowUtxo datum secret ba now).isOk = true ↔
      (datum.state = .Locked ∧ hashSecret secret = datum.secretHash ∧ now ≤ datum.deadline)) ∧
    ((HTLCTransactionBuilder.buildClaim htlcUtxo hdatum secret ra ca now).isOk = true ↔
      (sha256 secret = hdatum.secretHash ∧ now < hdatum.timeout)) ∧
    (datum.state = .Locked → hashSecret secret ≠ datum.secretHash →
      buildClaimEscrowTransaction escrowUtxo datum secret ba now
        = .error "Invalid secret: hash does not match") ∧
    (datum.state = .Locked → hashSecret secret = datum.secretHash → datum.deadline < now →
      buildClaimEscrowTransaction escrowUtxo datum secret ba now
        = .error "Claim deadline has passed") := by
  unfold buildClaimEscrowTransaction HTLCTransactionBuilder.buildClaim
  refine ⟨?_, ?_, ?_, ?_⟩
  · split_ifs with h1 h2 h3
    all_goals simp [Except.isOk, Except.toBool]
    · tauto
    · tauto
    · intro hs hh
      omega
    · refine ⟨by tauto, by tauto, by omega⟩
  · split_ifs with h1 h2
    all_goals simp [Except.isOk, Except.toBool]
    · tauto
    · intro hs
      omega
    · refine ⟨by tauto, by omega⟩
  · intro hs hm; simp [hs, hm]
  · intro hs hm hd; simp [hs, hm]; omega

set_option maxRecDepth 10000 in
/-- C1 witness: the amended success condition at a concrete input — a claim
with the right secret one millisecond before the deadline goes through on
both builders. -/
theorem claim_C1_witness :
    (buildClaimEscrowTransaction
      { txHash := "tx0", outputIndex := 0, value := 6000000 }
      { depositor := "dep", beneficiary := "ben", secretHash := hashSecret "s",
        deadline := 100, amount := 6000000, state := .Locked, btcTxRef := none }
      "s" "benAddr" 99).isOk = true ∧
    (HTLCTransactionBuilder.buildClaim { txHash := "tx1", outputIndex := 0 }
      { recipient := "r", refundAddress := "f", secretHash := sha256 "s",
        timeout := 100, tokenPolicy := "p", tokenName := "n", tokenAmount := 7 }
      "s" "rAddr" "chg" 99).isOk = true := by
  constructor
  · exact (claim_C1_amended _ _ { txHash := "tx1", outputIndex := 0 }
      { recipient := "r", refundAddress := "f", secretHash := sha256 "s",
        timeout := 100, tokenPolicy := "p", tokenName := "n", tokenAmount := 7 }
      "s" "benAddr" "rAddr" "chg" 99).1.mpr ⟨rfl, rfl, by decide⟩
  · exact (claim_C1_amended
      { txHash := "tx0", outputIndex := 0, value := 6000000 }
      { depositor := "dep", beneficiary := "ben", secretHash := hashSecret "s",
        deadline := 100, amount := 6000000, state := .Locked, btcTxRef := none }
      _ _ "s" "benAddr" "rAddr" "chg" 99).2.1.mpr ⟨rfl, by decide⟩

/-! ## C2 — Refund transaction builders and the grace period -/

/-- C2 counterexample.  The claim states refunds succeed only from
`deadline + grace` on, the interval `[deadline, deadline + grace)` being a
dead zone.  `HTLCTransactionBuilder.buildRefund` (cited by the claim) applies
no grace period: at `now = timeout`, inside the claimed dead zone, the refund
builder succeeds. -/
theorem claim_C2_counterexample :
    (HTLCTransactionBuilder.buildRefund { txHash := "tx2", outputIndex := 0 }
      { recipient := "r", refundAddress := "f", secretHash := "h",
        timeout := 1000, tokenPolicy := "p", tokenName := "n", tokenAmount := 7 }
      "fAddr" "chg" 1000).isOk = true ∧ 1000 < 1000 + GRACE_PERIOD_MS := by
  constructor
  · decide
  · decide

/-- C2 (amended): `buildRefundEscrowTransaction` behaves as claimed — with a
`Locked` datum it succeeds iff `now ≥ deadline + GRACE_PERIOD_MS` (300000 ms),
hence fails before the deadline and throughout the dead zone;
`HTLCTransactionBuilder.buildRefund`, however, enforces no grace period and
succeeds iff `now ≥ timeout`. -/
theorem claim_C2_amended (escrowUtxo : EscrowUtxo) (datum : EscrowDatum)
    (htlcUtxo : UtxoInput) (hdatum : HTLCDatum) (da ra ca : String) (now : Nat) :
    ((buildRefundEscrowTransaction escrowUtxo datum da now).isOk = true ↔
      (datum.state = .Locked ∧ datum.deadline + GRACE_PERIOD_MS ≤ now)) ∧
    ((HTLCTransactionBuilder.buildRefund htlcUtxo hdatum ra ca now).isOk = true ↔
      hdatum.timeout ≤ now) := by
  simp only [buildRefundEscrowTransaction, HTLCTransactionBuilder.buildRefund]
  constructor
  · split_ifs with h1 h2
    all_goals simp [Except.isOk, Except.toBool]
    · tauto
    · intro hs
      omega
    · refine ⟨by tauto, by omega⟩
  · split_ifs with h1
    all_goals simp [Except.isOk, Except.toBool]
    · omega
    · omega

/-! ## C3 — Cancel transaction builder -/

/-- C3 counterexample.  The claim states cancellation succeeds only when the
caller is the depositor, others failing with `Unauthorized`.
`buildCancelEscrowTransaction` performs no caller check: invoked with a
caller address different from `datum.depositor` (before the deadline, datum
`Locked`) it still succeeds. -/
theorem claim_C3_counterexample :
    (buildCancelEscrowTransaction { txHash := "tx3", outputIndex := 0, value := 6000000 }
      { depositor := "alice", beneficiary := "ben", secretHash := "h",
        deadline := 100, amount := 6000000, state := .Locked, btcTxRef := none }
      "mallory" 10).isOk = true ∧ "mallory" ≠ "alice" := by
  constructor
  · decide
  · decide

/-- C3 (amended): `buildCancelEscrowTransaction` succeeds iff the datum is
`Locked` and `now < deadline`; a passed deadline yields the deadline-passed
error.  The builder performs no depositor-authorization check at all: its
result is independent of the caller address it is given, and no
`Unauthorized` failure exists. -/
theorem claim_C3_amended (escrowUtxo : EscrowUtxo) (datum : EscrowDatum)
    (da da2 : String) (now : Nat) :
    ((buildCancelEscrowTransaction escrowUtxo datum da now).isOk = true ↔
      (datum.state = .Locked ∧ now < datum.deadline)) ∧
    buildCancelEscrowTransaction escrowUtxo datum da now
      = buildCancelEscrowTransaction escrowUtxo datum da2 now ∧
    (datum.state = .Locked → datum.deadline ≤ now →
      buildCancelEscrowTransaction escrowUtxo datum da now
        = .error "Cannot cancel after deadline - use refund instead") := by
  refine ⟨?_, rfl, ?_⟩
  · unfold buildCancelEscrowTransaction
    split_ifs with h1 h2
    all_goals simp [Except.isOk, Except.toBool]
    · tauto
    · intro hs
      omega
    · refine ⟨by tauto, by omega⟩
  · intro hs hd
    unfold buildCancelEscrowTransaction
    rw [if_neg (by simp [hs]), if_pos (by omega)]

/-- C3 witness: the amended success condition at a concrete input. -/
theorem claim_C3_witness :
    (buildCancelEscrowTransaction { txHash := "tx3", outputIndex := 0, value := 6000000 }
      { depositor := "alice", beneficiary := "ben", secretHash := "h",
        deadline := 100, amount := 6000000, state := .Locked, btcTxRef := none }
      "alice" 150).isOk = false := by
  have := (claim_C3_amended { txHash := "tx3", outputIndex := 0, value := 6000000 }
    { depositor := "alice", beneficiary := "ben", secretHash := "h",
      deadline := 100, amount := 6000000, state := .Locked, btcTxRef := none }
    "alice" "alice" 150).2.2 rfl (by decide)
  rw [this]
  decide

/-! ## C4 — Creation preconditions -/

/-- C4 counterexample.  The claim states that `amount < minimumEscrowAmount`
makes every escrow creation fail fast with an `InvalidDatum`-class error.
`HTLCTransactionBuilder.buildCreate` (cited by the claim) performs no
minimum-amount check: a zero-token HTLC with a future timeout and a 64-char
hash is accepted. -/
theorem claim_C4_counterexample :
    (HTLCTransactionBuilder.buildCreate
      { recipient := "r", refundAddress := "f",
        secretHash := String.mk (List.replicate 64 'a'),
        timeout := 100, tokenPolicy := "p", tokenName := "n", tokenAmount := 0 }
      [{ txHash := "tx4", outputIndex := 0 }] "chg" "script" 0).isOk = true ∧
    0 < MIN_ESCROW_AMOUNT := by
  constructor
  · decide
  · decide

/-- C4 (amended): `buildCreateEscrowTransaction` enforces the amount and
deadline preconditions (success iff `amount ≥ MIN_ESCROW_AMOUNT` and
`deadline > now`) and on success its datum is `Locked` with a 64-character
secret hash (the hash is computed from the secret, so no hash-length input
precondition exists there); `HTLCTransactionBuilder.buildCreate` enforces
only the future-deadline and 64-hex-character preconditions, with no
minimum-amount check; `validateEscrowDatum` enforces amount, deadline and
hash length, but additionally requires 56-character depositor and
beneficiary key hashes. -/
theorem claim_C4_amended (dep ben secret : String) (amount deadline : Nat)
    (btcTxRef : Option String) (sa da : String) (hdatum : HTLCDatum)
    (fu : List UtxoInput) (ca : String) (vdatum : EscrowDatum) (now : Nat) :
    ((buildCreateEscrowTransaction dep ben secret amount deadline btcTxRef sa da now).isOk = true
      ↔ (MIN_ESCROW_AMOUNT ≤ amount ∧ now < deadline)) ∧
    (∀ d tx, buildCreateEscrowTransaction dep ben secret amount deadline btcTxRef sa da now
        = .ok (d, tx) → d.state = .Locked ∧ d.secretHash.length = 64) ∧
    ((HTLCTransactionBuilder.buildCreate hdatum fu ca sa now).isOk = true ↔
      (now < hdatum.timeout ∧ hdatum.secretHash.length = 64)) ∧
    ((validateEscrowDatum vdatum now).isOk = true ↔
      (MIN_ESCROW_AMOUNT ≤ vdatum.amount ∧ now < vdatum.deadline ∧
        vdatum.secretHash.length = 64 ∧ vdatum.depositor.length = 56 ∧
        vdatum.beneficiary.length = 56)) := by
  refine ⟨?_, ?_, ?_, ?_⟩
  · unfold buildCreateEscrowTransaction
    split_ifs with h1 h2
    all_goals simp [Except.isOk, Except.toBool]
    · omega
    · omega
    · omega
  · intro d tx h
    unfold buildCreateEscrowTransaction at h
    split_ifs at h
    simp only [Except.ok.injEq, Prod.mk.injEq] at h
    rw [← h.1]
    exact ⟨rfl, hashSecret_length secret⟩
  · unfold HTLCTransactionBuilder.buildCreate
    split_ifs with h1 h2
    all_goals simp [Except.isOk, Except.toBool]
    · omega
    · intro hn
      omega
    · refine ⟨by omega, by omega⟩
  · unfold validateEscrowDatum
    split_ifs with h1 h2 h3 h4 h5
    all_goals simp [Except.isOk, Except.toBool]
    · omega
    · omega
    · intro ha hd
      omega
    · intro ha hd hh
      omega
    · intro ha hd hh hdep
      omega
    · refine ⟨by omega, by omega, by omega, by omega, by omega⟩

/-- C4 witness: the amended conditions at concrete inputs — a valid escrow
creation succeeds and yields a `Locked` datum. -/
theorem claim_C4_witness :
    (buildCreateEscrowTransaction "dep" "ben" "s" 6000000 100 none "sa" "da" 0).isOk = true := by
  exact (claim_C4_amended "dep" "ben" "s" 6000000 100 none "sa" "da"
    { recipient := "r", refundAddress := "f", secretHash := "h",
      timeout := 100, tokenPolicy := "p", tokenName := "n", tokenAmount := 0 }
    [] "chg"
    { depositor := "dep", beneficiary := "ben", secretHash := "h",
      deadline := 100, amount := 6000000, state := .Locked, btcTxRef := none }
    0).1.mpr ⟨by decide, by decide⟩

/-! ## C5 — Atomic-swap parameter generation -/

/-- C5: with `bitcoinTimeoutMs < cardanoTimeoutMs`, the generated Bitcoin
(counterparty-claimable) timeout is strictly earlier than the Cardano HTLC
(initiator-refundable) timeout, and the returned `secretHash` is the SHA-256
digest of the returned `secret`. -/
theorem claim_C5 (params : AtomicSwapParams) (secret : String) (now : Nat)
    (h : params.bitcoinTimeoutMs < params.cardanoTimeoutMs) :
    (generateAtomicSwapParams params secret now).bitcoinTimeout
      < (generateAtomicSwapParams params secret now).cardanoHTLC.timeout ∧
    (generateAtomicSwapParams params secret now).secretHash
      = sha256 (generateAtomicSwapParams params secret now).secret := by
  refine ⟨?_, rfl⟩
  simp only [generateAtomicSwapParams, calculateTimeout]
  omega

/-- C5 witness: the generation property at the unit test's concrete swap
parameters (one-hour Bitcoin leg against a two-hour Cardano leg). -/
theorem claim_C5_witness :
    (generateAtomicSwapParams
      { cardanoOfferTokenPolicy := "abc123", cardanoOfferTokenName := "TOKEN",
        cardanoOfferAmount := 1000000, initiator := "addr_initiator",
        counterparty := "addr_counterparty", cardanoTimeoutMs := 7200000,
        bitcoinTimeoutMs := 3600000 } "swapsecret" 1700000000000).bitcoinTimeout
      < (generateAtomicSwapParams
      { cardanoOfferTokenPolicy := "abc123", cardanoOfferTokenName := "TOKEN",
        cardanoOfferAmount := 1000000, initiator := "addr_initiator",
        counterparty := "addr_counterparty", cardanoTimeoutMs := 7200000,
        bitcoinTimeoutMs := 3600000 } "swapsecret" 1700000000000).cardanoHTLC.timeout :=
  (claim_C5
    { cardanoOfferTokenPolicy := "abc123", cardanoOfferTokenName := "TOKEN",
      cardanoOfferAmount := 1000000, initiator := "addr_initiator",
      counterparty := "addr_counterparty", cardanoTimeoutMs := 7200000,
      bitcoinTimeoutMs := 3600000 } "swapsecret" 1700000000000 (by decide)).1

/-! ## C8 — Retryable submitter -/

/-- C8: with `maxAttempts = 3`, `baseDelayMs = 1000`, `maxDelayMs = 30000`, a
submission that always throws a retryable (network-class) error is attempted
exactly 3 times, the backoff slept between attempt 1 and 2 is 1000 ms and
between attempt 2 and 3 is 2000 ms (each `min(base·2^(n-1), maxDelayMs)`; the
source also sleeps a final 4000 ms backoff after the last attempt, visible as
the third trace entry), and the result is the last error wrapped with the
attempt count; a non-retryable error is returned after exactly one attempt
with no retry and no backoff. -/
theorem claim_C8 (netMsg badMsg : String)
    (hn : isRetryableError netMsg = true) (hb : isRetryableError badMsg = false) :
    submitWithRetry (fun _ => .err netMsg) { maxAttempts := 3, baseDelayMs := 1000, maxDelayMs := 30000 }
      = { result := .error (retryFailure { maxAttempts := 3, baseDelayMs := 1000, maxDelayMs := 30000 } (some netMsg)),
          attempts := 3, delays := [1000, 2000, 4000] } ∧
    submitWithRetry (fun _ => .err badMsg) { maxAttempts := 3, baseDelayMs := 1000, maxDelayMs := 30000 }
      = { result := .error (retryFailure { maxAttempts := 3, baseDelayMs := 1000, maxDelayMs := 30000 } (some badMsg)),
          attempts := 1, delays := [] } := by
  constructor
  · simp [submitWithRetry, submitWithRetryGo, hn]
  · simp [submitWithRetry, submitWithRetryGo, hb]

/-- C8 witness: the retry schedule at concrete error messages — a connection
error is retried to exhaustion, a validation error aborts at once. -/
theorem claim_C8_witness :
    (submitWithRetry (fun _ => .err "connection refused")
      { maxAttempts := 3, baseDelayMs := 1000, maxDelayMs := 30000 }).attempts = 3 ∧
    (submitWithRetry (fun _ => .err "invalid datum structure")
      { maxAttempts := 3, baseDelayMs := 1000, maxDelayMs := 30000 }).attempts = 1 := by
  constructor
  · rw [(claim_C8 "connection refused" "invalid datum structure" (by decide) (by decide)).1]
  · rw [(claim_C8 "connection refused" "invalid datum structure" (by decide) (by decide)).2]

/-! ## C9 — Royalty share validation and exact distribution -/

/-- C9: shares `[7000, 2000, 1000]` basis points over `100_000_000` units
pay exactly `[70_000_000, 20_000_000, 10_000_000]` (both through
`calculatePayout` and through the distribution output loop), and any
recipient list whose shares sum to anything other than 10000 fails
`validateShares` and is rejected by `RoyaltyBuilder.buildCreateRoyalty`
before any transaction is constructed. -/
theorem claim_C9 :
    (calculatePayout 100000000 7000 = 70000000 ∧
     calculatePayout 100000000 2000 = 20000000 ∧
     calculatePayout 100000000 1000 = 10000000 ∧
     distributeOutputs 100000000
       [{ address := "artist", shareBps := 7000 }, { address := "producer", shareBps := 2000 },
        { address := "label", shareBps := 1000 }]
       = [("artist", 70000000), ("producer", 20000000), ("label", 10000000)] ∧
     validateShares
       [{ address := "artist", shareBps := 7000 }, { address := "producer", shareBps := 2000 },
        { address := "label", shareBps := 1000 }] = true) ∧
    (∀ (params : CreateRoyaltyParams) (va ca : String),
      params.recipients.foldl (fun acc r => acc + r.shareBps) 0 ≠ 10000 →
      validateShares params.recipients = false ∧
      buildCreateRoyalty params va ca
        = .error "Royalty shares must sum to exactly 10000 basis points (100%)") := by
  constructor
  · refine ⟨by decide, by decide, by decide, by decide, by decide⟩
  · intro params va ca h
    have hv : validateShares params.recipients = false := by
      simp [validateShares, h]
    refine ⟨hv, ?_⟩
    unfold buildCreateRoyalty
    rw [if_pos (by simp [hv])]

/-- C9 witness: splits summing to 9999 and to 10001 are both rejected before
transaction construction. -/
theorem claim_C9_witness :
    buildCreateRoyalty
      { nftPolicyId := "pid",
        recipients := [{ address := "a", shareBps := 6999 }, { address := "b", shareBps := 2000 },
          { address := "c", shareBps := 1000 }],
        admin := "adm", initialFunding := 2000000 } "va" "ca"
      = .error "Royalty shares must sum to exactly 10000 basis points (100%)" ∧
    buildCreateRoyalty
      { nftPolicyId := "pid",
        recipients := [{ address := "a", shareBps := 7001 }, { address := "b", shareBps := 2000 },
          { address := "c", shareBps := 1000 }],
        admin := "adm", initialFunding := 2000000 } "va" "ca"
      = .error "Royalty shares must sum to exactly 10000 basis points (100%)" := by
  constructor
  · exact (claim_C9.2
      { nftPolicyId := "pid",
        recipients := [{ address := "a", shareBps := 6999 }, { address := "b", shareBps := 2000 },
          { address := "c", shareBps := 1000 }],
        admin := "adm", initialFunding := 2000000 } "va" "ca" (by decide)).2
  · exact (claim_C9.2
      { nftPolicyId := "pid",
        recipients := [{ address := "a", shareBps := 7001 }, { address := "b", shareBps := 2000 },
          { address := "c", shareBps := 1000 }],
        admin := "adm", initialFunding := 2000000 } "va" "ca" (by decide)).2

/-! ## C10 — Distribution never overpays -/

/-- Truncating division is superadditive: summing quotients undershoots the
quotient of the sum. -/
theorem div_add_div_le_add_div (a b d : Nat) (hd : 0 < d) :
    a / d + b / d ≤ (a + b) / d := by
  rw [Nat.le_div_iff_mul_le hd, Nat.add_mul]
  exact Nat.add_le_add (Nat.div_mul_le_self a d) (Nat.div_mul_le_self b d)

/-- The sum of per-recipient payouts is at most the basis-point share of the
total. -/
theorem sum_calculatePayout_le (total : Nat) (rs : List RoyaltyRecipient) :
    (rs.map (fun r => calculatePayout total r.shareBps)).sum
      ≤ total * (rs.map (fun r => r.shareBps)).sum / 10000 := by
  induction rs with
  | nil => simp
  | cons r t ih =>
    simp only [List.map_cons, List.sum_cons, calculatePayout] at ih ⊢
    calc total * r.shareBps / 10000 + (t.map (fun r => total * r.shareBps / 10000)).sum
        ≤ total * r.shareBps / 10000 + total * (t.map (fun r => r.shareBps)).sum / 10000 :=
          Nat.add_le_add_left ih _
      _ ≤ (total * r.shareBps + total * (t.map (fun r => r.shareBps)).sum) / 10000 :=
          div_add_div_le_add_div _ _ _ (by norm_num)
      _ = total * (r.shareBps + (t.map (fun r => r.shareBps)).sum) / 10000 := by
          rw [Nat.mul_add]

/-- Threshold filtering only drops non-negative summands. -/
theorem distributeOutputs_sum_le (total : Nat) (rs : List RoyaltyRecipient) :
    ((distributeOutputs total rs).map Prod.snd).sum
      ≤ (rs.map (fun r => calculatePayout total r.shareBps)).sum := by
  induction rs with
  | nil => simp [distributeOutputs]
  | cons r t ih =>
    simp only [distributeOutputs, List.filterMap_cons] at ih ⊢
    by_cases hlt : r.minThreshold.getD 0 ≠ 0 ∧
        calculatePayout total r.shareBps < r.minThreshold.getD 0
    · rw [if_pos hlt]
      simp only [List.map_cons, List.sum_cons]
      exact le_trans ih (Nat.le_add_left _ _)
    · rw [if_neg hlt]
      simp only [List.map_cons, List.sum_cons]
      exact Nat.add_le_add_left ih _

/-- C10: for every total and every recipient list whose basis-point shares
sum to at most 10000, the distribution outputs of `buildDistribute` pay out
at most the sum of the `calculatePayout` shares, which itself is at most the
distributable total — threshold filtering only decreases the paid-out sum,
and the distribution never overpays. -/
theorem claim_C10 (total : Nat) (recipients : List RoyaltyRecipient)
    (h : (recipients.map (fun r => r.shareBps)).sum ≤ 10000) :
    ((distributeOutputs total recipients).map Prod.snd).sum
      ≤ (recipients.map (fun r => calculatePayout total r.shareBps)).sum ∧
    (recipients.map (fun r => calculatePayout total r.shareBps)).sum ≤ total := by
  refine ⟨distributeOutputs_sum_le total recipients, ?_⟩
  calc (recipients.map (fun r => calculatePayout total r.shareBps)).sum
      ≤ total * (recipients.map (fun r => r.shareBps)).sum / 10000 :=
        sum_calculatePayout_le total recipients
    _ ≤ total * 10000 / 10000 :=
        Nat.div_le_div_right (Nat.mul_le_mul_left total h)
    _ = total := Nat.mul_div_cancel total (by norm_num)

/-- C10 witness: the bound at a concrete sub-100% split with a threshold
that drops one recipient. -/
theorem claim_C10_witness :
    ((distributeOutputs 1000003
        [{ address := "a", shareBps := 5000 }, { address := "b", shareBps := 2500, minThreshold := some 999999999 }]).map
      Prod.snd).sum
      ≤ ([{ address := "a", shareBps := 5000 },
          { address := "b", shareBps := 2500, minThreshold := some 999999999 }].map
            (fun r : RoyaltyRecipient => calculatePayout 1000003 r.shareBps)).sum ∧
    ([{ address := "a", shareBps := 5000 },
      { address := "b", shareBps := 2500, minThreshold := some 999999999 }].map
        (fun r : RoyaltyRecipient => calculatePayout 1000003 r.shareBps)).sum ≤ 1000003 :=
  claim_C10 1000003
    [{ address := "a", shareBps := 5000 }, { address := "b", shareBps := 2500, minThreshold := some 999999999 }]
    (by decide)

/-! ## C6 — OneForOne escalation scenario -/

/-- The C6 scenario configuration: `OneForOne`, process A with
`maxRestarts = 2` and window `w`, process B alongside. -/
def C6config (w bA mB wB bB supMax supW : Nat) : SupervisorConfig :=
  { strategy := .OneForOne,
    children := [{ id := "A", maxRestarts := 2, restartWindow := w, backoffMs := bA },
                 { id := "B", maxRestarts := mB, restartWindow := wB, backoffMs := bB }],
    maxRestarts := supMax, restartWindow := supW }

/-- First crash of A (registration at `t0`, crash at `n1`). -/
def C6crash1 (w bA mB wB bB supMax supW t0 n1 : Nat) : SupervisorState × List SupAction :=
  Supervisor.handleCrash (C6config w bA mB wB bB supMax supW)
    (Supervisor.initialState ["A", "B"] t0) "A" n1

/-- Second crash of A at `n2`. -/
def C6crash2 (w bA mB wB bB supMax supW t0 n1 n2 : Nat) : SupervisorState × List SupAction :=
  Supervisor.handleCrash (C6config w bA mB wB bB supMax supW)
    (C6crash1 w bA mB wB bB supMax supW t0 n1).1 "A" n2

/-- Third crash of A at `n3`. -/
def C6crash3 (w bA mB wB bB supMax supW t0 n1 n2 n3 : Nat) : SupervisorState × List SupAction :=
  Supervisor.handleCrash (C6config w bA mB wB bB supMax supW)
    (C6crash2 w bA mB wB bB supMax supW t0 n1 n2).1 "A" n3

/-- C6 counterexample.  The claim states B is never stopped or restarted by
any of the three crashes.  In the concrete scenario (window 1000, crashes at
10, 20, 30) the third crash escalates — and the escalation path calls
`restartAll`, which stops and restarts B: `stop B` appears in the third
crash's trace. -/
theorem claim_C6_counterexample :
    SupAction.escalated ∈ (C6crash3 1000 5 2 1000 7 5 1000 0 10 20 30).2 ∧
    SupAction.stop "B" ∈ (C6crash3 1000 5 2 1000 7 5 1000 0 10 20 30).2 ∧
    SupAction.start "B" ∈ (C6crash3 1000 5 2 1000 7 5 1000 0 10 20 30).2 := by
  refine ⟨by decide, by decide, by decide⟩

/-- C6 (amended): with `OneForOne` and `maxRestarts = 2` for A, three crashes
of A inside A's restart window leave the first two handled by restarting only
A — B sees no stop or start — while the third crash escalates; the
escalation, however, is tree-wide: it emits `escalated` and restarts all
processes (or, with the supervisor's own budget already exhausted, emits
`supervisorCrashed` and stops all), so B is stopped as part of handling the
third crash. -/
theorem claim_C6_amended (w bA mB wB bB supMax supW t0 n1 n2 n3 : Nat)
    (hn1 : n1 - t0 ≤ w) (hn2 : n2 - t0 ≤ w) (hn3 : n3 - t0 ≤ w) :
    (C6crash1 w bA mB wB bB supMax supW t0 n1).2
      = [.crashed "A", .restarting "A" 1, .delay (bA * 1), .stop "A", .start "A",
         .restarted "A" 1] ∧
    (C6crash2 w bA mB wB bB supMax supW t0 n1 n2).2
      = [.crashed "A", .restarting "A" 2, .delay (bA * 2), .stop "A", .start "A",
         .restarted "A" 2] ∧
    (SupAction.escalated ∈ (C6crash3 w bA mB wB bB supMax supW t0 n1 n2 n3).2 ∨
      SupAction.supCrashed ∈ (C6crash3 w bA mB wB bB supMax supW t0 n1 n2 n3).2) ∧
    SupAction.stop "B" ∈ (C6crash3 w bA mB wB bB supMax supW t0 n1 n2 n3).2 := by
  have hw1 : ¬ (n1 - t0 > w) := by omega
  have hw2 : ¬ (n2 - t0 > w) := by omega
  have hw3 : ¬ (n3 - t0 > w) := by omega
  have s1 : C6crash1 w bA mB wB bB supMax supW t0 n1 =
      ({ procIds := ["A", "B"],
         restartCounts := [("A", { count := 1, windowStart := t0 }),
                           ("B", { count := 0, windowStart := t0 })],
         supervisorRestarts := { count := 0, windowStart := t0 }, isRunning := true },
       [.crashed "A", .restarting "A" 1, .delay (bA * 1), .stop "A", .start "A",
        .restarted "A" 1]) := by
    simp [C6crash1, C6config, Supervisor.handleCrash, Supervisor.shouldEscalate,
      Supervisor.lookupInfo, Supervisor.setInfo, Supervisor.findChild,
      Supervisor.initialState, Supervisor.restartProc, Supervisor.stopTrace,
      Supervisor.startTrace, List.find?, hw1]
  have s2 : C6crash2 w bA mB wB bB supMax supW t0 n1 n2 =
      ({ procIds := ["A", "B"],
         restartCounts := [("A", { count := 2, windowStart := t0 }),
                           ("B", { count := 0, windowStart := t0 })],
         supervisorRestarts := { count := 0, windowStart := t0 }, isRunning := true },
       [.crashed "A", .restarting "A" 2, .delay (bA * 2), .stop "A", .start "A",
        .restarted "A" 2]) := by
    rw [C6crash2, s1]
    simp [C6config, Supervisor.handleCrash, Supervisor.shouldEscalate,
      Supervisor.lookupInfo, Supervisor.setInfo, Supervisor.findChild,
      Supervisor.restartProc, Supervisor.stopTrace,
      Supervisor.startTrace, List.find?, hw2]
  refine ⟨by rw [s1], by rw [s2], ?_, ?_⟩
  all_goals
    rw [C6crash3, s2]
    by_cases hsw : n3 - t0 > supW <;> by_cases hsm : 1 ≥ supMax <;>
      simp [C6config, Supervisor.handleCrash, Supervisor.shouldEscalate,
        Supervisor.lookupInfo, Supervisor.setInfo, Supervisor.findChild,
        Supervisor.escalate, Supervisor.stopAllRun, Supervisor.restartAllTrace,
        List.find?, hw3, hsw, hsm]

/-- C6 witness: the amended scenario at concrete times — the first crash
restarts only A. -/
theorem claim_C6_witness :
    (C6crash1 1000 5 2 1000 7 5 1000 0 10).2
      = [.crashed "A", .restarting "A" 1, .delay (5 * 1), .stop "A", .start "A",
         .restarted "A" 1] :=
  (claim_C6_amended 1000 5 2 1000 7 5 1000 0 10 20 30
    (by decide) (by decide) (by decide)).1

/-! ## C7 — RestForOne restart order -/

/-- C7: with `RestForOne` and processes registered as [A, B, C], a crash of B
within budget stops C then B, then starts B then C; the trace is exactly
`[crashed B, stop C, stop B, start B, start C]` — A is never stopped or
started. -/
theorem claim_C7 (mA wA bA mB wB bB mC wC bC supMax supW t0 now : Nat)
    (h : 0 < mB) :
    (Supervisor.handleCrash
      { strategy := .RestForOne,
        children := [{ id := "A", maxRestarts := mA, restartWindow := wA, backoffMs := bA },
                     { id := "B", maxRestarts := mB, restartWindow := wB, backoffMs := bB },
                     { id := "C", maxRestarts := mC, restartWindow := wC, backoffMs := bC }],
        maxRestarts := supMax, restartWindow := supW }
      (Supervisor.initialState ["A", "B", "C"] t0) "B" now).2
      = [.crashed "B", .stop "C", .stop "B", .start "B", .start "C"] := by
  have hmB : ¬ (0 ≥ mB) := by omega
  by_cases hw : now - t0 > wB <;>
    simp [Supervisor.handleCrash, Supervisor.shouldEscalate, Supervisor.lookupInfo,
      Supervisor.setInfo, Supervisor.findChild, Supervisor.initialState,
      Supervisor.restForOneTrace, List.find?, List.findIdx?,
      hw, hmB]

/-- C7 witness: the restart order at concrete budgets and times. -/
theorem claim_C7_witness :
    (Supervisor.handleCrash
      { strategy := .RestForOne,
        children := [{ id := "A", maxRestarts := 3, restartWindow := 100, backoffMs := 5 },
                     { id := "B", maxRestarts := 3, restartWindow := 100, backoffMs := 5 },
                     { id := "C", maxRestarts := 3, restartWindow := 100, backoffMs := 5 }],
        maxRestarts := 5, restartWindow := 100 }
      (Supervisor.initialState ["A", "B", "C"] 0) "B" 10).2
      = [.crashed "B", .stop "C", .stop "B", .start "B", .start "C"] :=
  claim_C7 3 100 5 3 100 5 3 100 5 5 100 0 10 (by decide)
